import Mathlib

/-!
# Shallow embedding of `opengm::learning::BundleOptimizer`

Source: `src/include/opengm/learning/bundle-optimizer.hxx`.

The optimizer's scalar type `ValueType` is instantiated with `ℚ` (the C++ code
is generic over the numeric type; all values manipulated by the claims are
rational).  Weight vectors are `List ℚ`; for the caller-supplied weight-vector
capability both `numberOfParameters()` and `numberOfWeights()` return the
vector's arity, embedded as `List.length`.

The oracle and the QP solver backend are external collaborators of the core:
they are embedded as function parameters.  `BundleCollector` and the
`QuadraticObjective` builder are repository code outside the provided source
tree; the spec describes them precisely (append-only hyperplane store, one
constraint per hyperplane, coefficient setters) and they are modelled from it
where noted.

To reason about the sequence of solver-API and oracle calls the embedding
produces, each step additionally emits a ghost trace of `Event`s; the trace
has no influence on the computed values.
-/

namespace Bundle

/-- `OptimizerResult` from the source. -/
inductive OptimizerResult where
  | ReachedMinGap
  | ReachedSteps
  | Error
deriving DecidableEq, Repr

/-- `BundleOptimizer::Parameter` of the source: regularizer weight `lambda`,
stopping threshold `min_gap`, step cap `steps` (0 = no limit). -/
structure Parameter where
  lambda : ℚ
  min_gap : ℚ
  steps : ℕ
deriving DecidableEq, Repr

/-- The default-constructed `Parameter()`: `lambda = 1.0`, `min_gap = 1e-5`,
`steps = 0`. -/
def defaultParameter : Parameter := ⟨1, 1 / 100000, 0⟩

/-- A cutting plane `(a, b)` representing the affine bound `⟨w,a⟩ + b`.
Modelled from the spec: `BundleCollector` stores an append-only sequence of
these pairs (its header is not part of the provided source). -/
structure Hyperplane where
  a : List ℚ
  b : ℚ
deriving DecidableEq, Repr

/-- Objective sense, `solver::Minimize` / maximize. -/
inductive Sense where
  | Minimize
  | Maximize
deriving DecidableEq, Repr

/-- `solver::QuadraticObjective`.  Modelled from the spec: a container of
quadratic coefficients (set by `setQuadraticCoefficient(i,j,c)`), linear
coefficients (set by `setCoefficient(i,c)`) and a sense, sized to a number of
variables (its header is not part of the provided source).  Setter calls are
recorded in order. -/
structure QuadraticObjective where
  numVars : ℕ
  quadratic : List (ℕ × ℕ × ℚ)
  linear : List (ℕ × ℚ)
  sense : Sense
deriving DecidableEq, Repr

/-- `obj.setQuadraticCoefficient(i, j, c)`. -/
def QuadraticObjective.setQuadraticCoefficient (o : QuadraticObjective) (i j : ℕ) (c : ℚ) :
    QuadraticObjective :=
  ⟨o.numVars, o.quadratic ++ [(i, j, c)], o.linear, o.sense⟩

/-- `obj.setCoefficient(i, c)`. -/
def QuadraticObjective.setCoefficient (o : QuadraticObjective) (i : ℕ) (c : ℚ) :
    QuadraticObjective :=
  ⟨o.numVars, o.quadratic, o.linear ++ [(i, c)], o.sense⟩

/-- `obj.setSense(s)`. -/
def QuadraticObjective.setSense (o : QuadraticObjective) (s : Sense) : QuadraticObjective :=
  ⟨o.numVars, o.quadratic, o.linear, s⟩

/-- Read back the quadratic coefficient at entry `(i, j)` (0 if never set). -/
def QuadraticObjective.quadCoeff (o : QuadraticObjective) (i j : ℕ) : ℚ :=
  ((o.quadratic.find? (fun e => e.1 == i && e.2.1 == j)).map (fun e => e.2.2)).getD 0

/-- Read back the linear coefficient of variable `i` (0 if never set). -/
def QuadraticObjective.linCoeff (o : QuadraticObjective) (i : ℕ) : ℚ :=
  ((o.linear.find? (fun e => e.1 == i)).map (fun e => e.2)).getD 0

/-- The response of one `_solver->solve(x, value, msg)` call: solution vector,
attained objective value, optimality flag and diagnostic message. -/
structure SolverResponse where
  x : List ℚ
  value : ℚ
  optimal : Bool
  msg : String
deriving DecidableEq, Repr

/-- The external QP solver backend: given the installed objective and the
installed constraint set (one constraint `⟨w,a_i⟩ + b_i ≤ ξ` per hyperplane,
so the constraint set is determined by the hyperplane list), produce a
response.  External collaborator, supplied as a parameter. -/
abbrev Solver := QuadraticObjective → List Hyperplane → SolverResponse

/-- The oracle: `oracle(w_tm1, L_w_tm1, a_t)` returns by reference the value
and the gradient of `L` at the query point.  External collaborator. -/
abbrev Oracle := List ℚ → ℚ × List ℚ

/-- The loop body of `BundleOptimizer::dot`:
`T d = 0.0; for (i < a.numberOfParameters()) d += a[i]+b[i];` —
note the literal source adds `a[i] + b[i]`, it does not multiply. -/
def dotU (a b : List ℚ) : ℚ :=
  (a.zip b).foldl (fun d p => d + (p.1 + p.2)) 0

/-- Error raised on an arity mismatch at the `dot` boundary. -/
inductive DotError where
  | DimensionMismatch
deriving DecidableEq, Repr

/-- `BundleOptimizer::dot(a, b)`.  The guard is the source's
`OPENGM_ASSERT(a.numberOfParameters() == b.numberOfParameters())`; the macro's
definition is outside the provided source, so its effect is
modelled from the spec: a dimension mismatch "should be rejected as a
precondition violation at the boundary of the inner-product operation
(fail-fast)".  On equal arities the result is the literal source loop. -/
def dot (a b : List ℚ) : Except DotError ℚ :=
  if a.length = b.length then Except.ok (dotU a b) else Except.error DotError.DimensionMismatch

/-- The inner product the spec's design-level contract demands of `dot`
(`Σᵢ aᵢ·bᵢ`, a true product-sum).  Stated from the spec's words, for
comparison with the source's `dotU`. -/
def specDot (a b : List ℚ) : ℚ :=
  (a.zip b).foldl (fun d p => d + p.1 * p.2) 0

/-- `std::min(minValue, v)` where `minValue` was initialized to
`std::numeric_limits<T>::infinity()`: `none` models the initial `+∞`. -/
def updMin : Option ℚ → ℚ → ℚ
  | none, v => v
  | some m, v => min m v

/-- `x ≤ y` in the order on `Option ℚ` in which `none` is `+∞`. -/
def optLeB : Option ℚ → Option ℚ → Bool
  | _, none => true
  | none, some _ => false
  | some a, some b => decide (a ≤ b)

/-- Ghost trace events: oracle and solver-API calls made by the optimizer. -/
inductive Event where
  | initSolver (numVars : ℕ)
  | setObjective (obj : QuadraticObjective)
  | oracleEval (w : List ℚ)
  | addHyperplane (h : Hyperplane)
  | setConstraints (planes : List Hyperplane)
  | solveQp (obj : QuadraticObjective)
  | warnNonOptimal
  | writeWeights (w : List ℚ)
deriving DecidableEq, Repr

/-- Matches `Event.setObjective _`. -/
def isSetObjectiveB : Event → Bool
  | Event.setObjective _ => true
  | _ => false

/-- Matches `Event.oracleEval _`. -/
def isOracleEvalB : Event → Bool
  | Event.oracleEval _ => true
  | _ => false

/-- Matches `Event.addHyperplane _`. -/
def isAddHyperplaneB : Event → Bool
  | Event.addHyperplane _ => true
  | _ => false

/-- Matches `Event.setConstraints _`. -/
def isSetConstraintsB : Event → Bool
  | Event.setConstraints _ => true
  | _ => false

/-- Matches `Event.solveQp _`. -/
def isSolveQpB : Event → Bool
  | Event.solveQp _ => true
  | _ => false

/-- Matches `Event.writeWeights _`. -/
def isWriteWeightsB : Event → Bool
  | Event.writeWeights _ => true
  | _ => false

/-- The loop `for (i < n) w[i] = x[i];` of `findMinLowerBound` (there
`n = w.numberOfParameters()`): position `i` of the result holds `x[i]` when
`i < n`, and the old `w[i]` otherwise. -/
def copyFirst (n : ℕ) (w x : List ℚ) : List ℚ :=
  (List.range w.length).map (fun i => if i < n then x.getD i 0 else w.getD i 0)

/-- `setupQp`'s construction of the objective:
`QuadraticObjective obj(w.numberOfWeights() + 1);`
`for (i < w.numberOfWeights()) obj.setQuadraticCoefficient(i, i, 0.5*lambda);`
`obj.setCoefficient(w.numberOfWeights(), 1.0); obj.setSense(Minimize);`
with `n = w.numberOfWeights()` (= the arity of `w`). -/
def setupQpObjective (p : Parameter) (n : ℕ) : QuadraticObjective :=
  let base : QuadraticObjective := ⟨n + 1, [], [], Sense.Minimize⟩
  let withQuad := (List.range n).foldl
    (fun o i => o.setQuadraticCoefficient i i ((1 : ℚ) / 2 * p.lambda)) base
  (withQuad.setCoefficient n 1).setSense Sense.Minimize

/-- `BundleOptimizer::findMinLowerBound(w, value)`:
`_solver->setConstraints(_bundleCollector.getConstraints());` (the collector
emits one constraint per stored hyperplane, so the constraint set passed on is
the hyperplane list `planes`), then `_solver->solve(x, value, msg)`; on a
non-optimal response only a warning is printed; unconditionally
`for (i < w.numberOfParameters()) w[i] = x[i];`.
Returns the updated `w`, the out-parameter `value`, and the ghost events. -/
def findMinLowerBound (solve : Solver) (obj : QuadraticObjective)
    (planes : List Hyperplane) (w : List ℚ) : List ℚ × ℚ × List Event :=
  let resp := solve obj planes
  let w' := copyFirst w.length w resp.x
  (w', resp.value,
    Event.setConstraints planes :: Event.solveQp obj ::
      ((if resp.optimal then [] else [Event.warnNonOptimal]) ++ [Event.writeWeights w']))

/-- The driver state across iterations of one `optimize` call: the weight
vector `w`, the best observed regularized value `minValue` (`none` = the
initial `+∞`), the hyperplanes accumulated in `_bundleCollector`, and the
objective installed on `_solver` by `setupQp`. -/
structure IterState where
  w : List ℚ
  minValue : Option ℚ
  hyperplanes : List Hyperplane
  installedObj : QuadraticObjective
deriving DecidableEq, Repr

/-- One pass of the `while (true)` body of `BundleOptimizer::optimize`:
evaluate the oracle at `w_tm1 = st.w`; update
`minValue = min(minValue, L + lambda*0.5*dot(w_tm1, w_tm1))`;
append the hyperplane `(a_t, L - dot(w_tm1, a_t))`; run `findMinLowerBound`.
Returns the successor state, the gap `eps_t = minValue - minLower`, and the
ghost events of the pass. -/
def iteration (p : Parameter) (oracle : Oracle) (solve : Solver) (st : IterState) :
    IterState × ℚ × List Event :=
  let or := oracle st.w
  let minValue := updMin st.minValue (or.1 + p.lambda * (1 / 2) * dotU st.w st.w)
  let b_t := or.1 - dotU st.w or.2
  let planes := st.hyperplanes ++ [⟨or.2, b_t⟩]
  let f := findMinLowerBound solve st.installedObj planes st.w
  (⟨f.1, some minValue, planes, st.installedObj⟩, minValue - f.2.1,
    Event.oracleEval st.w :: Event.addHyperplane ⟨or.2, b_t⟩ :: f.2.2)

/-- Outcome of a terminating run: result, final state, event trace. -/
abbrev RunOut := OptimizerResult × IterState × List Event

/-- The `while (true)` loop of `optimize`, with explicit fuel: the source loop
has no iteration bound, so a run that does not converge within `fuel`
iterations is `none`.  Each pass ends with `if (eps_t <= min_gap) break;`,
after which the function returns `ReachedMinGap`. -/
def optimizeLoop (p : Parameter) (oracle : Oracle) (solve : Solver) :
    ℕ → IterState → Option RunOut
  | 0, _ => none
  | fuel + 1, st =>
    let r := iteration p oracle solve st
    if r.2.1 ≤ p.min_gap then
      some (OptimizerResult.ReachedMinGap, r.1, r.2.2)
    else
      (optimizeLoop p oracle solve fuel r.1).map
        (fun out => (out.1, out.2.1, r.2.2 ++ out.2.2))

/-- `BundleOptimizer::optimize(oracle, w)`: `setupQp(w)` (solver
`initialize(w.numberOfParameters() + 1, Continuous)` and `setObjective` of the
objective built over `w.numberOfWeights() + 1` variables — both counts are the
arity of `w`), then the iteration loop starting from `minValue = +∞` and an
empty per-run hyperplane store. -/
def optimize (p : Parameter) (oracle : Oracle) (solve : Solver) (fuel : ℕ)
    (w : List ℚ) : Option RunOut :=
  let obj := setupQpObjective p w.length
  let st0 : IterState := ⟨w, none, [], obj⟩
  (optimizeLoop p oracle solve fuel st0).map
    (fun out => (out.1, out.2.1,
      Event.initSolver (w.length + 1) :: Event.setObjective obj :: out.2.2))

/-- The constant oracle of the spec's first scenario: `L(w) ≡ 5`, gradient `≡ 0`
(1-dimensional). -/
def constOracle : Oracle := fun _ => (5, [0])

/-- Largest intercept among the stored hyperplanes (0 for an empty store). -/
def maxIntercept (planes : List Hyperplane) : ℚ :=
  (planes.map Hyperplane.b).foldl max 0

/-- The exact QP solver the scenario supplies: when every stored hyperplane has
slope 0, the subproblem `min ½λ|w|² + ξ  s.t.  b_i ≤ ξ` is solved exactly by
`w = 0`, `ξ = max_i b_i`, with objective value `max_i b_i` (1-dimensional `w`,
so the solution vector is `[0, max_i b_i]`). -/
def exactConstSolver : Solver := fun _ planes =>
  ⟨[0, maxIntercept planes], maxIntercept planes, true, ""⟩

/-- The driver state at the top of the first iteration of the scenario:
1-dimensional weight initialized to 0, `minValue = +∞`, empty store, default
parameters. -/
def scenarioStart : IterState := ⟨[0], none, [], setupQpObjective defaultParameter 1⟩

/-- The driver state after the scenario's single iteration. -/
def scenarioFinal : IterState := ⟨[0], some 5, [⟨[0], 5⟩], setupQpObjective defaultParameter 1⟩

/-- The events of the scenario's single iteration. -/
def scenarioEvents : List Event :=
  [Event.oracleEval [0], Event.addHyperplane ⟨[0], 5⟩, Event.setConstraints [⟨[0], 5⟩],
    Event.solveQp (setupQpObjective defaultParameter 1), Event.writeWeights [0]]

/-- The scenario's loop outcome. -/
def scenarioOut : RunOut := (OptimizerResult.ReachedMinGap, scenarioFinal, scenarioEvents)

/-- The scenario's `optimize` outcome (loop outcome plus the `setupQp` events). -/
def scenarioFullOut : RunOut :=
  (OptimizerResult.ReachedMinGap, scenarioFinal,
    Event.initSolver 2 :: Event.setObjective (setupQpObjective defaultParameter 1) ::
      scenarioEvents)

/-- An oracle whose runs never converge against `stallSolver`: constant 0 with
zero gradient. -/
def zeroOracle : Oracle := fun _ => (0, [0])

/-- A solver that always reports the objective value `-1`, keeping the gap at 1
forever against `zeroOracle`. -/
def stallSolver : Solver := fun _ _ => ⟨[0, 0], -1, true, ""⟩

/-- A solver that reports a non-optimal solve, for exercising the warning
branch of `findMinLowerBound`. -/
def warnSolver : Solver := fun _ _ => ⟨[7, 9], 3, false, "infeasible"⟩

/-- Oracle for the intercept computation at `w = [1]`: value 0, gradient `[2]`. -/
def interceptOracle : Oracle := fun _ => (0, [2])

/-- Start state for the intercept computation: 1-dimensional weight `[1]`. -/
def interceptStart : IterState := ⟨[1], none, [], setupQpObjective defaultParameter 1⟩

/-- The state after `k` passes of the loop body. -/
def iterN (p : Parameter) (oracle : Oracle) (solve : Solver) : ℕ → IterState → IterState
  | 0, st => st
  | k + 1, st => iterN p oracle solve k (iteration p oracle solve st).1

/-- The gap `eps_t` computed in pass `k` (0-based) of the loop. -/
def epsAt (p : Parameter) (oracle : Oracle) (solve : Solver) (st : IterState) (k : ℕ) : ℚ :=
  (iteration p oracle solve (iterN p oracle solve k st)).2.1

/-! ## Helper lemmas -/

theorem copyFirst_length (n : ℕ) (w x : List ℚ) : (copyFirst n w x).length = w.length := by
  simp [copyFirst]

theorem copyFirst_getD (n : ℕ) (w x : List ℚ) (i : ℕ) (h : i < w.length) :
    (copyFirst n w x).getD i 0 = if i < n then x.getD i 0 else w.getD i 0 := by
  unfold copyFirst
  rw [List.getD_eq_getElem?_getD, List.getElem?_map, List.getElem?_range h]
  rfl

theorem copyFirst_getD_oob (n : ℕ) (w x : List ℚ) (i : ℕ) (h : w.length ≤ i) :
    (copyFirst n w x).getD i 0 = w.getD i 0 := by
  rw [List.getD_eq_getElem?_getD, List.getD_eq_getElem?_getD,
    List.getElem?_eq_none (by simpa [copyFirst_length] using h),
    List.getElem?_eq_none h]

theorem foldl_setQuadraticCoefficient (c : ℚ) :
    ∀ (l : List ℕ) (base : QuadraticObjective),
      l.foldl (fun o i => o.setQuadraticCoefficient i i c) base =
        ⟨base.numVars, base.quadratic ++ l.map (fun i => (i, i, c)), base.linear, base.sense⟩
  | [], base => by simp
  | i :: l, base => by
    rw [List.foldl_cons, foldl_setQuadraticCoefficient c l]
    simp [QuadraticObjective.setQuadraticCoefficient]

theorem setupQpObjective_eq (p : Parameter) (n : ℕ) :
    setupQpObjective p n =
      ⟨n + 1, (List.range n).map (fun i => (i, i, 1 / 2 * p.lambda)), [(n, 1)],
        Sense.Minimize⟩ := by
  simp [setupQpObjective, foldl_setQuadraticCoefficient,
    QuadraticObjective.setCoefficient, QuadraticObjective.setSense]

theorem find?_range_diag (c : ℚ) :
    ∀ (n : ℕ) (i : ℕ), i < n →
      ((List.range n).map (fun j => (j, j, c))).find? (fun e => e.1 == i && e.2.1 == i) =
        some (i, i, c)
  | 0, i, h => absurd h (Nat.not_lt_zero i)
  | n + 1, i, h => by
    rw [List.range_succ, List.map_append, List.find?_append]
    by_cases hi : i < n
    · rw [find?_range_diag c n i hi]
      rfl
    · have hin : i = n := by omega
      subst hin
      have hnone : ((List.range i).map (fun j => (j, j, c))).find?
          (fun e => e.1 == i && e.2.1 == i) = none := by
        rw [List.find?_eq_none]
        intro e he
        rcases List.mem_map.mp he with ⟨j, hj, rfl⟩
        have : j ≠ i := Nat.ne_of_lt (List.mem_range.mp hj)
        simp [this]
      rw [hnone]
      simp

theorem setupQp_quadCoeff (p : Parameter) (n i : ℕ) (h : i < n) :
    (setupQpObjective p n).quadCoeff i i = 1 / 2 * p.lambda := by
  rw [setupQpObjective_eq]
  unfold QuadraticObjective.quadCoeff
  rw [show (QuadraticObjective.mk (n + 1)
      ((List.range n).map (fun i => (i, i, 1 / 2 * p.lambda))) [(n, 1)]
      Sense.Minimize).quadratic =
    (List.range n).map (fun i => (i, i, 1 / 2 * p.lambda)) from rfl]
  rw [find?_range_diag _ n i h]
  rfl

theorem setupQp_linCoeff (p : Parameter) (n : ℕ) :
    (setupQpObjective p n).linCoeff n = 1 := by
  rw [setupQpObjective_eq]
  simp [QuadraticObjective.linCoeff]

theorem iteration_installedObj (p : Parameter) (oracle : Oracle) (solve : Solver)
    (st : IterState) : (iteration p oracle solve st).1.installedObj = st.installedObj := rfl

theorem iteration_minValue (p : Parameter) (oracle : Oracle) (solve : Solver)
    (st : IterState) :
    (iteration p oracle solve st).1.minValue =
      some (updMin st.minValue ((oracle st.w).1 + p.lambda * (1 / 2) * dotU st.w st.w)) := rfl

theorem iteration_hyperplanes (p : Parameter) (oracle : Oracle) (solve : Solver)
    (st : IterState) :
    (iteration p oracle solve st).1.hyperplanes =
      st.hyperplanes ++ [⟨(oracle st.w).2, (oracle st.w).1 - dotU st.w (oracle st.w).2⟩] := rfl

theorem iteration_w (p : Parameter) (oracle : Oracle) (solve : Solver) (st : IterState) :
    (iteration p oracle solve st).1.w =
      copyFirst st.w.length st.w
        (solve st.installedObj (iteration p oracle solve st).1.hyperplanes).x := rfl

theorem iteration_events (p : Parameter) (oracle : Oracle) (solve : Solver) (st : IterState) :
    (iteration p oracle solve st).2.2 =
      Event.oracleEval st.w ::
        Event.addHyperplane ⟨(oracle st.w).2, (oracle st.w).1 - dotU st.w (oracle st.w).2⟩ ::
          Event.setConstraints (iteration p oracle solve st).1.hyperplanes ::
            Event.solveQp st.installedObj ::
              ((if (solve st.installedObj (iteration p oracle solve st).1.hyperplanes).optimal
                  then []
                  else [Event.warnNonOptimal]) ++
                [Event.writeWeights (iteration p oracle solve st).1.w]) := rfl

theorem iteration_counts (p : Parameter) (oracle : Oracle) (solve : Solver) (st : IterState) :
    ((iteration p oracle solve st).2.2).countP isOracleEvalB = 1
    ∧ ((iteration p oracle solve st).2.2).countP isAddHyperplaneB = 1
    ∧ ((iteration p oracle solve st).2.2).countP isSetConstraintsB = 1
    ∧ ((iteration p oracle solve st).2.2).countP isSolveQpB = 1
    ∧ ((iteration p oracle solve st).2.2).countP isWriteWeightsB = 1
    ∧ ((iteration p oracle solve st).2.2).countP isSetObjectiveB = 0 := by
  rw [iteration_events]
  cases (solve st.installedObj (iteration p oracle solve st).1.hyperplanes).optimal <;>
    simp [List.countP_cons, List.countP_append, isOracleEvalB, isAddHyperplaneB,
      isSetConstraintsB, isSolveQpB, isWriteWeightsB, isSetObjectiveB]

theorem iteration_solveQp_mem (p : Parameter) (oracle : Oracle) (solve : Solver)
    (st : IterState) (o : QuadraticObjective) :
    Event.solveQp o ∈ (iteration p oracle solve st).2.2 → o = st.installedObj := by
  rw [iteration_events]
  intro h
  cases (solve st.installedObj (iteration p oracle solve st).1.hyperplanes).optimal <;>
    simp_all

theorem updMin_le (m : Option ℚ) (v : ℚ) : optLeB (some (updMin m v)) m = true := by
  cases m with
  | none => rfl
  | some a => simp [optLeB, updMin, min_le_left]

theorem optLeB_trans (a b c : Option ℚ) (h1 : optLeB a b = true) (h2 : optLeB b c = true) :
    optLeB a c = true := by
  cases a <;> cases b <;> cases c <;> simp_all [optLeB]
  exact le_trans h1 h2

theorem optimizeLoop_zero (p : Parameter) (oracle : Oracle) (solve : Solver) (st : IterState) :
    optimizeLoop p oracle solve 0 st = none := rfl

theorem optimizeLoop_succ (p : Parameter) (oracle : Oracle) (solve : Solver) (fuel : ℕ)
    (st : IterState) :
    optimizeLoop p oracle solve (fuel + 1) st =
      if (iteration p oracle solve st).2.1 ≤ p.min_gap then
        some (OptimizerResult.ReachedMinGap, (iteration p oracle solve st).1,
          (iteration p oracle solve st).2.2)
      else
        (optimizeLoop p oracle solve fuel (iteration p oracle solve st).1).map
          (fun out => (out.1, out.2.1, (iteration p oracle solve st).2.2 ++ out.2.2)) := rfl

theorem epsAt_zero (p : Parameter) (oracle : Oracle) (solve : Solver) (st : IterState) :
    epsAt p oracle solve st 0 = (iteration p oracle solve st).2.1 := rfl

theorem epsAt_succ (p : Parameter) (oracle : Oracle) (solve : Solver) (st : IterState)
    (k : ℕ) :
    epsAt p oracle solve st (k + 1) = epsAt p oracle solve (iteration p oracle solve st).1 k :=
  rfl

theorem optimizeLoop_some (p : Parameter) (oracle : Oracle) (solve : Solver) :
    ∀ (fuel : ℕ) (st : IterState) (out : RunOut),
      optimizeLoop p oracle solve fuel st = some out →
        out.1 = OptimizerResult.ReachedMinGap
        ∧ out.2.1.installedObj = st.installedObj
        ∧ optLeB out.2.1.minValue st.minValue = true
        ∧ (∃ tail : List Hyperplane,
            out.2.1.hyperplanes = st.hyperplanes ++ tail
            ∧ tail.length = out.2.2.countP isOracleEvalB)
        ∧ 1 ≤ out.2.2.countP isOracleEvalB
        ∧ out.2.2.countP isAddHyperplaneB = out.2.2.countP isOracleEvalB
        ∧ out.2.2.countP isSolveQpB = out.2.2.countP isOracleEvalB
        ∧ out.2.2.countP isWriteWeightsB = out.2.2.countP isOracleEvalB
        ∧ out.2.2.countP isSetConstraintsB = out.2.2.countP isOracleEvalB
        ∧ out.2.2.countP isSetObjectiveB = 0
        ∧ (∀ o : QuadraticObjective, Event.solveQp o ∈ out.2.2 → o = st.installedObj)
  | 0, st, out => by
    intro h
    exact absurd h (by simp [optimizeLoop_zero])
  | fuel + 1, st, out => by
    intro h
    rw [optimizeLoop_succ] at h
    by_cases hle : (iteration p oracle solve st).2.1 ≤ p.min_gap
    · rw [if_pos hle] at h
      obtain rfl := (Option.some.inj h).symm
      obtain ⟨c1, c2, c3, c4, c5, c6⟩ := iteration_counts p oracle solve st
      refine ⟨rfl, iteration_installedObj p oracle solve st, ?_, ?_, ?_, ?_, ?_, ?_, ?_, ?_, ?_⟩
      · rw [iteration_minValue]
        exact updMin_le st.minValue _
      · exact ⟨[⟨(oracle st.w).2, (oracle st.w).1 - dotU st.w (oracle st.w).2⟩],
          iteration_hyperplanes p oracle solve st, by simp [c1]⟩
      · rw [c1]
      · rw [c1, c2]
      · rw [c1, c4]
      · rw [c1, c5]
      · rw [c1, c3]
      · exact c6
      · exact iteration_solveQp_mem p oracle solve st
    · rw [if_neg hle] at h
      rcases Option.map_eq_some'.mp h with ⟨out', hout', rfl⟩
      obtain ⟨h1, h2, h3, ⟨tail', ht', hlen'⟩, h5, h6, h7, h8, h9, h10, h11⟩ :=
        optimizeLoop_some p oracle solve fuel (iteration p oracle solve st).1 out' hout'
      obtain ⟨c1, c2, c3, c4, c5, c6⟩ := iteration_counts p oracle solve st
      refine ⟨h1, ?_, ?_, ?_, ?_, ?_, ?_, ?_, ?_, ?_, ?_⟩
      · exact h2.trans (iteration_installedObj p oracle solve st)
      · refine optLeB_trans _ _ _ h3 ?_
        rw [iteration_minValue]
        exact updMin_le st.minValue _
      · refine ⟨⟨(oracle st.w).2, (oracle st.w).1 - dotU st.w (oracle st.w).2⟩ :: tail', ?_, ?_⟩
        · rw [ht', iteration_hyperplanes]
          simp
        · simp only [List.countP_append, List.length_cons, c1, hlen']
          omega
      · simp only [List.countP_append, c1]
        omega
      · simp only [List.countP_append, c1, c2, h6]
      · simp only [List.countP_append, c1, c4, h7]
      · simp only [List.countP_append, c1, c5, h8]
      · simp only [List.countP_append, c1, c3, h9]
      · simp only [List.countP_append, c6, h10]
      · intro o ho
        rcases List.mem_append.mp ho with hin | hin
        · exact iteration_solveQp_mem p oracle solve st o hin
        · exact (h11 o hin).trans (iteration_installedObj p oracle solve st)

theorem optimizeLoop_none_iff (p : Parameter) (oracle : Oracle) (solve : Solver) :
    ∀ (fuel : ℕ) (st : IterState),
      optimizeLoop p oracle solve fuel st = none ↔
        ∀ k, k < fuel → p.min_gap < epsAt p oracle solve st k
  | 0, st => by simp [optimizeLoop_zero]
  | fuel + 1, st => by
    rw [optimizeLoop_succ]
    by_cases hle : (iteration p oracle solve st).2.1 ≤ p.min_gap
    · rw [if_pos hle]
      constructor
      · intro h
        exact absurd h (by simp)
      · intro h
        exact absurd (h 0 (Nat.succ_pos fuel)) (by rw [epsAt_zero]; exact not_lt.mpr hle)
    · rw [if_neg hle, Option.map_eq_none',
        optimizeLoop_none_iff p oracle solve fuel (iteration p oracle solve st).1]
      constructor
      · intro h k hk
        cases k with
        | zero => rw [epsAt_zero]; exact lt_of_not_le hle
        | succ k => rw [epsAt_succ]; exact h k (Nat.lt_of_succ_lt_succ hk)
      · intro h k hk
        rw [← epsAt_succ]
        exact h (k + 1) (Nat.succ_lt_succ hk)

theorem iteration_steps_indep (l g : ℚ) (n₁ n₂ : ℕ) (oracle : Oracle) (solve : Solver)
    (st : IterState) :
    iteration ⟨l, g, n₁⟩ oracle solve st = iteration ⟨l, g, n₂⟩ oracle solve st := rfl

theorem optimizeLoop_steps_indep (l g : ℚ) (n₁ n₂ : ℕ) (oracle : Oracle) (solve : Solver) :
    ∀ (fuel : ℕ) (st : IterState),
      optimizeLoop ⟨l, g, n₁⟩ oracle solve fuel st =
        optimizeLoop ⟨l, g, n₂⟩ oracle solve fuel st
  | 0, _ => rfl
  | fuel + 1, st => by
    rw [optimizeLoop_succ, optimizeLoop_succ, iteration_steps_indep l g n₁ n₂ oracle solve st,
      optimizeLoop_steps_indep l g n₁ n₂ oracle solve fuel]

/-! ## Concrete runs -/

theorem scenario_iteration_eq :
    iteration defaultParameter constOracle exactConstSolver scenarioStart =
      (scenarioFinal, 0, scenarioEvents) := by
  unfold iteration findMinLowerBound
  norm_num [scenarioStart, scenarioFinal, scenarioEvents, constOracle, exactConstSolver,
    defaultParameter, dotU, updMin, maxIntercept, copyFirst, List.range_succ]

theorem scenario_loop_eq :
    optimizeLoop defaultParameter constOracle exactConstSolver 1 scenarioStart =
      some scenarioOut := by
  rw [optimizeLoop_succ, scenario_iteration_eq]
  norm_num [defaultParameter, scenarioOut]

theorem scenario_optimize_eq :
    optimize defaultParameter constOracle exactConstSolver 1 [0] = some scenarioFullOut := by
  have h : (⟨[0], none, [], setupQpObjective defaultParameter 1⟩ : IterState) =
      scenarioStart := rfl
  simp only [optimize, List.length_cons, List.length_nil]
  rw [h, scenario_loop_eq]
  rfl

theorem stall_iteration_eq (mv : Option ℚ) (hp : List Hyperplane) :
    iteration defaultParameter zeroOracle stallSolver
        ⟨[0], mv, hp, setupQpObjective defaultParameter 1⟩ =
      (⟨[0], some (updMin mv 0), hp ++ [⟨[0], 0⟩], setupQpObjective defaultParameter 1⟩,
        updMin mv 0 + 1,
        [Event.oracleEval [0], Event.addHyperplane ⟨[0], 0⟩,
          Event.setConstraints (hp ++ [⟨[0], 0⟩]),
          Event.solveQp (setupQpObjective defaultParameter 1), Event.writeWeights [0]]) := by
  cases mv <;>
    · unfold iteration findMinLowerBound
      norm_num [zeroOracle, stallSolver, defaultParameter, dotU, copyFirst, List.range_succ,
        updMin]

theorem stall_gap_large :
    ∀ k, k < 2 →
      defaultParameter.min_gap < epsAt defaultParameter zeroOracle stallSolver scenarioStart k := by
  intro k hk
  interval_cases k
  · rw [epsAt_zero]
    have h0 : scenarioStart = ⟨[0], none, [], setupQpObjective defaultParameter 1⟩ := rfl
    rw [h0, stall_iteration_eq]
    norm_num [updMin, defaultParameter]
  · rw [epsAt_succ, epsAt_zero]
    have h0 : scenarioStart = ⟨[0], none, [], setupQpObjective defaultParameter 1⟩ := rfl
    rw [h0, stall_iteration_eq]
    norm_num
    rw [stall_iteration_eq]
    norm_num [updMin, defaultParameter]

/-! ## Claim theorems -/

/-- C1: the spec's design-level contract demands that `dot(a, b)` return the
standard inner product `Σᵢ aᵢ·bᵢ`.  The source instead sums `a[i] + b[i]`: on
the equal-arity input `a = [1, 2]`, `b = [3, 4]` the code returns
`(1+3) + (2+4) = 10` while the contract requires `1·3 + 2·4 = 11`. -/
theorem dot_is_sum_not_product :
    dot [1, 2] [3, 4] = Except.ok 10 ∧ specDot [1, 2] [3, 4] = 11 ∧ (10 : ℚ) ≠ 11 := by
  refine ⟨?_, ?_, by norm_num⟩
  · norm_num [dot, dotU]
  · norm_num [specDot]

/-- C5: the hyperplane appended in an iteration is `(a_t, b_t)` with `a_t` the
oracle's gradient at `w_{t-1}`, but the intercept is computed with the source's
sum-based `dot`, not the standard inner product: at `w = [1]` with oracle value
0 and gradient `[2]` the code appends intercept `0 - (1+2) = -3`, while
`b_t = L - ⟨w, a_t⟩` with the standard inner product gives `0 - 1·2 = -2`. -/
theorem intercept_uses_buggy_dot :
    (iteration defaultParameter interceptOracle exactConstSolver interceptStart).1.hyperplanes =
      [⟨[2], -3⟩]
    ∧ (interceptOracle [1]).1 - specDot [1] (interceptOracle [1]).2 = -2
    ∧ ((-3 : ℚ)) ≠ -2 := by
  refine ⟨?_, ?_, by norm_num⟩
  · rw [iteration_hyperplanes]
    norm_num [interceptStart, interceptOracle, dotU]
  · norm_num [interceptOracle, specDot]

/-- C7: when the solver reports a non-optimal result, `findMinLowerBound` still
adopts the returned solution: the weight vector receives the solution components
and the reported objective value is returned, exactly as in the optimal case;
the only difference is the emitted warning, present iff the result was
non-optimal. -/
theorem nonoptimal_solve_adopted (solve : Solver) (obj : QuadraticObjective)
    (planes : List Hyperplane) (w x : List ℚ) (v : ℚ) (b : Bool) (msg : String)
    (hresp : solve obj planes = ⟨x, v, b, msg⟩) :
    (findMinLowerBound solve obj planes w).1 = copyFirst w.length w x
    ∧ (findMinLowerBound solve obj planes w).2.1 = v
    ∧ (Event.warnNonOptimal ∈ (findMinLowerBound solve obj planes w).2.2 ↔ b = false)
    ∧ (findMinLowerBound solve obj planes w).1 =
        (findMinLowerBound (fun _ _ => ⟨x, v, true, msg⟩) obj planes w).1
    ∧ (findMinLowerBound solve obj planes w).2.1 =
        (findMinLowerBound (fun _ _ => ⟨x, v, true, msg⟩) obj planes w).2.1 := by
  cases b <;> simp [findMinLowerBound, hresp]

/-- Witness for C7: a solver reporting a non-optimal response `([7, 9], 3)` on
a 2-variable problem still has its solution copied into the weights and its
value returned, with the warning emitted. -/
theorem nonoptimal_solve_adopted_witness :
    (findMinLowerBound warnSolver (setupQpObjective defaultParameter 1) [] [0]).1 =
      copyFirst 1 [0] [7, 9]
    ∧ (findMinLowerBound warnSolver (setupQpObjective defaultParameter 1) [] [0]).2.1 = 3
    ∧ (Event.warnNonOptimal ∈
        (findMinLowerBound warnSolver (setupQpObjective defaultParameter 1) [] [0]).2.2 ↔
          false = false) := by
  have h := nonoptimal_solve_adopted warnSolver (setupQpObjective defaultParameter 1) []
    [0] [7, 9] 3 false "infeasible" rfl
  exact ⟨h.1, h.2.1, h.2.2.1⟩

/-- C8: `dot` rejects unequal arities as a precondition violation, failing fast
with a dimension-mismatch error instead of computing a partial result, and on
equal arities the failure branch is unreachable (the sum is returned). -/
theorem dot_rejects_dimension_mismatch (a b : List ℚ) :
    (a.length ≠ b.length → dot a b = Except.error DotError.DimensionMismatch)
    ∧ (a.length = b.length → dot a b = Except.ok (dotU a b)) := by
  constructor
  · intro h
    simp [dot, h]
  · intro h
    simp [dot, h]

/-- Witness for C8: invoked on vectors of lengths 3 and 4, `dot` fails with the
dimension-mismatch error. -/
theorem dot_rejects_dimension_mismatch_witness :
    dot [1, 2, 3] [1, 2, 3, 4] = Except.error DotError.DimensionMismatch :=
  (dot_rejects_dimension_mismatch [1, 2, 3] [1, 2, 3, 4]).1 (by decide)

/-- C9: `findMinLowerBound` writes exactly the first `numberOfParameters()`
components of the weight vector (component `i` receives solution component `i`
for `i < n`); the vector's length and any component at index `≥ n` are left
unchanged, and hence every iteration of `optimize` preserves the weight
vector's length. -/
theorem findMinLowerBound_frame (n : ℕ) (w x : List ℚ) (solve : Solver)
    (obj : QuadraticObjective) (planes : List Hyperplane) (p : Parameter) (oracle : Oracle)
    (st : IterState) :
    (copyFirst n w x).length = w.length
    ∧ (∀ i, i < n → i < w.length → (copyFirst n w x).getD i 0 = x.getD i 0)
    ∧ (∀ i, n ≤ i → (copyFirst n w x).getD i 0 = w.getD i 0)
    ∧ (findMinLowerBound solve obj planes w).1 = copyFirst w.length w (solve obj planes).x
    ∧ (iteration p oracle solve st).1.w =
        copyFirst st.w.length st.w
          (solve st.installedObj (iteration p oracle solve st).1.hyperplanes).x
    ∧ (iteration p oracle solve st).1.w.length = st.w.length := by
  refine ⟨copyFirst_length n w x, ?_, ?_, rfl, iteration_w p oracle solve st, ?_⟩
  · intro i hin hiw
    rw [copyFirst_getD n w x i hiw, if_pos hin]
  · intro i hni
    by_cases hiw : i < w.length
    · rw [copyFirst_getD n w x i hiw, if_neg (by omega)]
    · exact copyFirst_getD_oob n w x i (by omega)
  · rw [iteration_w]
    exact copyFirst_length _ _ _

/-- Witness for C9: copying the first 2 solution components into `[10, 20, 30]`
writes positions 0 and 1 and leaves position 2 unchanged. -/
theorem findMinLowerBound_frame_witness :
    (copyFirst 2 [10, 20, 30] [7, 8, 9, 11]).getD 1 0 = (8 : ℚ)
    ∧ (copyFirst 2 [10, 20, 30] [7, 8, 9, 11]).getD 2 0 = (30 : ℚ) := by
  have h := findMinLowerBound_frame 2 [10, 20, 30] [7, 8, 9, 11] stallSolver
    (setupQpObjective defaultParameter 3) [] defaultParameter zeroOracle scenarioStart
  constructor
  · rw [h.2.1 1 (by decide) (by decide)]
    decide
  · rw [h.2.2.1 2 (by decide)]
    decide

/-- C2: `optimize`'s loop returns, with result `ReachedMinGap`, exactly when the
gap `ε_t = minValue − minLower` of some iteration satisfies `ε_t ≤ min_gap`
(within the available fuel: the fuel-indexed loop is `none` — i.e. the source's
unbounded loop runs forever — iff every iteration's gap exceeds `min_gap`);
the `steps` configuration field is never consulted, so changing it changes
nothing, and `ReachedSteps`/`Error` are never returned. -/
theorem optimize_gap_termination (p : Parameter) (oracle : Oracle) (solve : Solver)
    (fuel : ℕ) (st : IterState) :
    (∀ out : RunOut, optimizeLoop p oracle solve fuel st = some out →
        out.1 = OptimizerResult.ReachedMinGap)
    ∧ (optimizeLoop p oracle solve fuel st = none ↔
        ∀ k, k < fuel → p.min_gap < epsAt p oracle solve st k)
    ∧ (∀ n : ℕ, optimizeLoop ⟨p.lambda, p.min_gap, n⟩ oracle solve fuel st =
        optimizeLoop p oracle solve fuel st)
    ∧ (∀ (n : ℕ) (w : List ℚ) (fuel2 : ℕ),
        optimize ⟨p.lambda, p.min_gap, n⟩ oracle solve fuel2 w =
          optimize p oracle solve fuel2 w) := by
  refine ⟨?_, optimizeLoop_none_iff p oracle solve fuel st, ?_, ?_⟩
  · intro out h
    exact (optimizeLoop_some p oracle solve fuel st out h).1
  · intro n
    cases p with
    | mk l g s => exact optimizeLoop_steps_indep l g n s oracle solve fuel st
  · intro n w fuel2
    cases p with
    | mk l g s =>
      simp only [optimize]
      rw [optimizeLoop_steps_indep l g n s oracle solve fuel2]
      have hobj : setupQpObjective ⟨l, g, n⟩ w.length = setupQpObjective ⟨l, g, s⟩ w.length :=
        rfl
      rw [hobj]

/-- Witness for C2: the scenario run returns `ReachedMinGap`, and a run whose
gaps all exceed `min_gap` (constant gap 1 under `stallSolver`) never returns
within 2 iterations. -/
theorem optimize_gap_termination_witness :
    scenarioOut.1 = OptimizerResult.ReachedMinGap
    ∧ optimizeLoop defaultParameter zeroOracle stallSolver 2 scenarioStart = none := by
  constructor
  · exact (optimize_gap_termination defaultParameter constOracle exactConstSolver 1
      scenarioStart).1 scenarioOut scenario_loop_eq
  · exact (optimize_gap_termination defaultParameter zeroOracle stallSolver 2
      scenarioStart).2.1.mpr stall_gap_large

/-- C3: with the constant oracle `L(w) ≡ 5`, gradient `≡ 0`, default
parameters (`lambda = 1`, `min_gap = 1e-5`), 1-dimensional weight initialized
to 0 and an exact QP solver: the first hyperplane appended is `(0, 5)`, the
subproblem optimum is `w = 0`, `ξ = 5` (every feasible point of the subproblem
has objective value at least the returned value 5), the gap is `5 − 5 = 0 ≤
min_gap`, and `optimize` returns `ReachedMinGap` after exactly 1 iteration
with final weight 0. -/
theorem constant_oracle_scenario :
    optimize defaultParameter constOracle exactConstSolver 1 [0] = some scenarioFullOut
    ∧ scenarioFullOut.1 = OptimizerResult.ReachedMinGap
    ∧ scenarioFullOut.2.1.w = [0]
    ∧ scenarioFullOut.2.1.hyperplanes = [⟨[0], 5⟩]
    ∧ scenarioFullOut.2.2.countP isOracleEvalB = 1
    ∧ (exactConstSolver (setupQpObjective defaultParameter 1) [⟨[0], 5⟩]).x = [0, 5]
    ∧ (exactConstSolver (setupQpObjective defaultParameter 1) [⟨[0], 5⟩]).value = 5
    ∧ epsAt defaultParameter constOracle exactConstSolver scenarioStart 0 = 0
    ∧ (0 : ℚ) ≤ defaultParameter.min_gap
    ∧ (∀ v ξ : ℚ, maxIntercept [⟨[0], 5⟩] ≤ ξ →
        (exactConstSolver (setupQpObjective defaultParameter 1) [⟨[0], 5⟩]).value ≤
          1 / 2 * defaultParameter.lambda * (v * v) + ξ) := by
  refine ⟨scenario_optimize_eq, rfl, rfl, rfl, ?_, ?_, ?_, ?_, ?_, ?_⟩
  · simp [scenarioFullOut, scenarioEvents, isOracleEvalB, List.countP_cons]
  · norm_num [exactConstSolver, maxIntercept]
  · norm_num [exactConstSolver, maxIntercept]
  · rw [epsAt_zero, scenario_iteration_eq]
  · norm_num [defaultParameter]
  · intro v ξ h
    have hm : maxIntercept [⟨[0], 5⟩] = 5 := by norm_num [maxIntercept]
    have hv : (exactConstSolver (setupQpObjective defaultParameter 1) [⟨[0], 5⟩]).value = 5 := by
      norm_num [exactConstSolver, maxIntercept]
    rw [hv]
    rw [hm] at h
    norm_num [defaultParameter]
    nlinarith [mul_self_nonneg v]

/-- Witness for C3: the exactness conjunct applied at the feasible point
`v = 3`, `ξ = 7`. -/
theorem constant_oracle_scenario_witness :
    (exactConstSolver (setupQpObjective defaultParameter 1) [⟨[0], 5⟩]).value ≤
      1 / 2 * defaultParameter.lambda * ((3 : ℚ) * 3) + 7 :=
  constant_oracle_scenario.2.2.2.2.2.2.2.2.2 3 7 (by norm_num [maxIntercept])

/-- C4: within one `optimize` call, one iteration updates `minValue` by `min`
with the newly observed regularized value (so it never increases, starting
from the initial `+∞`) and appends exactly one hyperplane; across any
terminating run, `minValue` is non-increasing and the hyperplane store only
grows — the initial store is a prefix of the final one and the number of
appended hyperplanes equals the number of iterations (counted by oracle
evaluations), with no hyperplane removed or modified. -/
theorem minValue_monotone_hyperplanes_grow (p : Parameter) (oracle : Oracle) (solve : Solver)
    (st : IterState) :
    optLeB (iteration p oracle solve st).1.minValue st.minValue = true
    ∧ (iteration p oracle solve st).1.minValue =
        some (updMin st.minValue ((oracle st.w).1 + p.lambda * (1 / 2) * dotU st.w st.w))
    ∧ (iteration p oracle solve st).1.hyperplanes =
        st.hyperplanes ++ [⟨(oracle st.w).2, (oracle st.w).1 - dotU st.w (oracle st.w).2⟩]
    ∧ (∀ (fuel : ℕ) (out : RunOut), optimizeLoop p oracle solve fuel st = some out →
        optLeB out.2.1.minValue st.minValue = true
        ∧ (∃ tail : List Hyperplane, out.2.1.hyperplanes = st.hyperplanes ++ tail
            ∧ tail.length = out.2.2.countP isOracleEvalB ∧ 1 ≤ tail.length)
        ∧ out.2.2.countP isAddHyperplaneB = out.2.2.countP isOracleEvalB) := by
  refine ⟨?_, iteration_minValue p oracle solve st, iteration_hyperplanes p oracle solve st, ?_⟩
  · rw [iteration_minValue]
    exact updMin_le st.minValue _
  · intro fuel out hout
    obtain ⟨-, -, h3, ⟨tail, ht, hlen⟩, h5, h6, -, -, -, -, -⟩ :=
      optimizeLoop_some p oracle solve fuel st out hout
    exact ⟨h3, ⟨tail, ht, hlen, by omega⟩, h6⟩

/-- Witness for C4: the scenario run's final `minValue` is below the initial
`+∞` and its store grew by exactly the one hyperplane of its one iteration. -/
theorem minValue_monotone_hyperplanes_grow_witness :
    optLeB scenarioOut.2.1.minValue scenarioStart.minValue = true
    ∧ (∃ tail : List Hyperplane,
        scenarioOut.2.1.hyperplanes = scenarioStart.hyperplanes ++ tail
        ∧ tail.length = scenarioOut.2.2.countP isOracleEvalB ∧ 1 ≤ tail.length)
    ∧ scenarioOut.2.2.countP isAddHyperplaneB = scenarioOut.2.2.countP isOracleEvalB :=
  (minValue_monotone_hyperplanes_grow defaultParameter constOracle exactConstSolver
    scenarioStart).2.2.2 1 scenarioOut scenario_loop_eq

/-- C6: the objective installed by `setupQp` is built once per `optimize` call,
before the loop (the trace starts with `initSolver`, `setObjective`), over
`numberOfWeights() + 1` variables with quadratic coefficient `0.5·lambda` on
each diagonal weight entry, linear coefficient 1 on ξ, minimization sense; no
further `setObjective` ever occurs, every solve uses that same objective, the
final installed objective is unchanged, and only the constraint set is re-set
(once before each solve). -/
theorem setupQp_objective_fixed (p : Parameter) (oracle : Oracle) (solve : Solver)
    (fuel : ℕ) (w : List ℚ) (out : RunOut)
    (hrun : optimize p oracle solve fuel w = some out) :
    (setupQpObjective p w.length).numVars = w.length + 1
    ∧ (∀ i, i < w.length → (setupQpObjective p w.length).quadCoeff i i = 1 / 2 * p.lambda)
    ∧ (setupQpObjective p w.length).linCoeff w.length = 1
    ∧ (setupQpObjective p w.length).sense = Sense.Minimize
    ∧ out.2.2.countP isSetObjectiveB = 1
    ∧ List.take 2 out.2.2 =
        [Event.initSolver (w.length + 1), Event.setObjective (setupQpObjective p w.length)]
    ∧ (∀ o : QuadraticObjective, Event.solveQp o ∈ out.2.2 → o = setupQpObjective p w.length)
    ∧ out.2.1.installedObj = setupQpObjective p w.length
    ∧ out.2.2.countP isSetConstraintsB = out.2.2.countP isSolveQpB := by
  simp only [optimize] at hrun
  rcases Option.map_eq_some'.mp hrun with ⟨out', hloop, rfl⟩
  obtain ⟨-, h2, -, -, -, -, h7, -, h9, h10, h11⟩ :=
    optimizeLoop_some p oracle solve fuel ⟨w, none, [], setupQpObjective p w.length⟩ out' hloop
  refine ⟨?_, ?_, setupQp_linCoeff p w.length, ?_, ?_, rfl, ?_, h2, ?_⟩
  · rw [setupQpObjective_eq]
  · intro i hi
    exact setupQp_quadCoeff p w.length i hi
  · rw [setupQpObjective_eq]
  · simp [List.countP_cons, isSetObjectiveB, h10]
  · intro o ho
    simp only [List.mem_cons] at ho
    rcases ho with h | h | h
    · exact absurd h (by simp)
    · exact absurd h (by simp)
    · exact h11 o h
  · simp only [List.countP_cons, isSetConstraintsB, isSolveQpB, h9, h7]

/-- Witness for C6: on the scenario run, `setObjective` appears exactly once
and the final installed objective is the one `setupQp` built. -/
theorem setupQp_objective_fixed_witness :
    scenarioFullOut.2.2.countP isSetObjectiveB = 1
    ∧ scenarioFullOut.2.1.installedObj = setupQpObjective defaultParameter 1 := by
  have h := setupQp_objective_fixed defaultParameter constOracle exactConstSolver 1 [0]
    scenarioFullOut scenario_optimize_eq
  exact ⟨h.2.2.2.2.1, h.2.2.2.2.2.2.2.1⟩

/-- C10: whenever `optimize` returns, it has executed at least one full
iteration regardless of oracle, weights and configuration (the gap test sits
at the bottom of the loop): the oracle was evaluated, a hyperplane was
appended, the QP subproblem was solved, and the weight vector was overwritten
with a subproblem solution, each at least once. -/
theorem optimize_runs_at_least_one_iteration (p : Parameter) (oracle : Oracle)
    (solve : Solver) (fuel : ℕ) (w : List ℚ) (out : RunOut)
    (hrun : optimize p oracle solve fuel w = some out) :
    1 ≤ out.2.2.countP isOracleEvalB
    ∧ 1 ≤ out.2.2.countP isAddHyperplaneB
    ∧ 1 ≤ out.2.2.countP isSolveQpB
    ∧ 1 ≤ out.2.2.countP isWriteWeightsB
    ∧ 1 ≤ out.2.1.hyperplanes.length := by
  simp only [optimize] at hrun
  rcases Option.map_eq_some'.mp hrun with ⟨out', hloop, rfl⟩
  obtain ⟨-, -, -, ⟨tail, ht, hlen⟩, h5, h6, h7, h8, -, -, -⟩ :=
    optimizeLoop_some p oracle solve fuel ⟨w, none, [], setupQpObjective p w.length⟩ out' hloop
  refine ⟨?_, ?_, ?_, ?_, ?_⟩
  · simpa [List.countP_cons, isOracleEvalB] using h5
  · simp only [List.countP_cons, isAddHyperplaneB]
    omega
  · simp only [List.countP_cons, isSolveQpB]
    omega
  · simp only [List.countP_cons, isWriteWeightsB]
    omega
  · show 1 ≤ out'.2.1.hyperplanes.length
    have hl : out'.2.1.hyperplanes.length = tail.length := by
      rw [ht]
      simp
    omega

/-- Witness for C10: the scenario run evaluated the oracle and stored a
hyperplane. -/
theorem optimize_runs_at_least_one_iteration_witness :
    1 ≤ scenarioFullOut.2.2.countP isOracleEvalB
    ∧ 1 ≤ scenarioFullOut.2.1.hyperplanes.length := by
  have h := optimize_runs_at_least_one_iteration defaultParameter constOracle
    exactConstSolver 1 [0] scenarioFullOut scenario_optimize_eq
  exact ⟨h.1, h.2.2.2.2⟩

end Bundle
